import Mathlib

/-!
Shallow embedding of `src/main.c` of the nRF52840 tech-demo firmware.

The firmware is glue code over the Nordic SoftDevice BLE stack: startup
configures GAP parameters, registers one service with one characteristic,
builds the advertising payload and starts advertising; at runtime two
callbacks run, `button_handler` (button edges) and `ble_evt_handler`
(connect/disconnect events).

The stack and board are modelled as an explicit state (`SysState`) holding
the three status LEDs, the connection handle `m_conn_handle`, the
queued-write module's bound handle, the advertising flag and a trace of
the primitive stack/board calls in the order the C code issues them.
Each C function becomes a Lean function on that state; SDK constants keep
their values from the Nordic SDK headers.
-/

/-! ### SDK constants (values from the Nordic SDK headers) -/

def BLE_CONN_HANDLE_INVALID : Nat := 0xFFFF

def BLE_GAP_EVT_CONNECTED : Nat := 0x10

def BLE_GAP_EVT_DISCONNECTED : Nat := 0x11

def BSP_BOARD_BUTTON_0 : Nat := 0

def APP_BUTTON_PUSH : Nat := 1

def APP_BUTTON_RELEASE : Nat := 0

def BSP_BOARD_LED_1 : Nat := 1

def BSP_BOARD_LED_2 : Nat := 2

def BSP_BOARD_LED_3 : Nat := 3

def BLE_GATT_HVX_NOTIFICATION : Nat := 1

def SEC_NO_ACCESS : Nat := 0

def SEC_OPEN : Nat := 1

def BLE_GATTS_SRVC_TYPE_PRIMARY : Nat := 1

def BLE_GAP_ADV_SET_DATA_SIZE_MAX : Nat := 31

def BLE_UUID_TYPE_VENDOR_BEGIN : Nat := 2

def UNIT_1_25_MS : Nat := 1250

def UNIT_10_MS : Nat := 10000

/-- SDK macro `MSEC_TO_UNITS(TIME, RESOLUTION) = ((TIME) * 1000) / (RESOLUTION)`. -/
def MSEC_TO_UNITS (time resolution : Nat) : Nat := time * 1000 / resolution

/-! ### Constants defined in `main.c` (lines 28-49) -/

def DEVICE_NAME : String := "nRF52840_TechDemo"

def MIN_CONN_INTERVAL : Nat := MSEC_TO_UNITS 100 UNIT_1_25_MS

def MAX_CONN_INTERVAL : Nat := MSEC_TO_UNITS 200 UNIT_1_25_MS

def SLAVE_LATENCY : Nat := 0

def CONN_SUP_TIMEOUT : Nat := MSEC_TO_UNITS 4000 UNIT_10_MS

def UUID_BASE : List Nat :=
  [0x23, 0xD1, 0xBC, 0xEA, 0x5F, 0x78, 0x23, 0x15,
   0xDE, 0xEF, 0x12, 0x12, 0x00, 0x00, 0x00, 0x00]

def UUID_SERVICE : Nat := 0x1234

def UUID_BUTTON_CHAR : Nat := 0x1234

/-! ### GAP preferred connection parameters (`gap_params_init`, lines 82-97) -/

/-- The `ble_gap_conn_params_t` fields the firmware fills in. -/
structure GapConnParams where
  min_conn_interval : Nat
  max_conn_interval : Nat
  slave_latency : Nat
  conn_sup_timeout : Nat
  deriving Repr, DecidableEq

/-- The connection-parameter block `gap_params_init` passes to
`sd_ble_gap_ppcp_set` (main.c lines 91-96).  Line 93 of the source assigns
`MIN_CONN_INTERVAL` to the `max_conn_interval` field. -/
def gap_params_init_ppcp : GapConnParams :=
  { min_conn_interval := MIN_CONN_INTERVAL
    max_conn_interval := MIN_CONN_INTERVAL
    slave_latency := SLAVE_LATENCY
    conn_sup_timeout := CONN_SUP_TIMEOUT }

/-! ### Runtime state and primitive stack/board calls -/

/-- One primitive board/stack call, recorded in program order. -/
inductive StackCall where
  | ledOn (idx : Nat)
  | ledOff (idx : Nat)
  | advStart
  | connAssign (h : Nat)
  | qwrAssign (h : Nat)
  | hvx (conn : Nat) (attr : Nat) (htype : Nat) (data : List Nat)
  deriving Repr, DecidableEq

/-- The observable state of the firmware plus the stack/board facilities it
drives.  `led1`/`led2`/`led3` are the button, advertising and connected
LEDs; `m_conn_handle` is the static of main.c line 55; `qwr_conn_handle`
is the handle bound into the queued-write module; `value_handle` is
`button_char_handles.value_handle`. -/
structure SysState where
  led1 : Bool
  led2 : Bool
  led3 : Bool
  m_conn_handle : Nat
  qwr_conn_handle : Nat
  advertising : Bool
  value_handle : Nat
  trace : List StackCall
  deriving Repr, DecidableEq

/-- State after `bsp_board_init(BSP_INIT_LEDS)` and the static initializers
(LEDs off, `m_conn_handle = BLE_CONN_HANDLE_INVALID`, not yet advertising). -/
def initState : SysState :=
  { led1 := false
    led2 := false
    led3 := false
    m_conn_handle := BLE_CONN_HANDLE_INVALID
    qwr_conn_handle := BLE_CONN_HANDLE_INVALID
    advertising := false
    value_handle := 0
    trace := [] }

def bsp_board_led_on (idx : Nat) (s : SysState) : SysState :=
  let s' :=
    if idx = 1 then { s with led1 := true }
    else if idx = 2 then { s with led2 := true }
    else if idx = 3 then { s with led3 := true }
    else s
  { s' with trace := s.trace ++ [StackCall.ledOn idx] }

def bsp_board_led_off (idx : Nat) (s : SysState) : SysState :=
  let s' :=
    if idx = 1 then { s with led1 := false }
    else if idx = 2 then { s with led2 := false }
    else if idx = 3 then { s with led3 := false }
    else s
  { s' with trace := s.trace ++ [StackCall.ledOff idx] }

def sd_ble_gap_adv_start (s : SysState) : SysState :=
  { s with advertising := true, trace := s.trace ++ [StackCall.advStart] }

/-- `nrf_ble_qwr_conn_handle_assign(&m_qwr, m_conn_handle)`: binds the
queued-write module to the given handle. -/
def nrf_ble_qwr_conn_handle_assign (h : Nat) (s : SysState) : SysState :=
  { s with qwr_conn_handle := h, trace := s.trace ++ [StackCall.qwrAssign h] }

/-- `advertising_start()` (main.c lines 198-201): start advertising, then
turn the advertising LED (LED 2) on. -/
def advertising_start (s : SysState) : SysState :=
  bsp_board_led_on BSP_BOARD_LED_2 (sd_ble_gap_adv_start s)

/-- `send_button(button_state)` (main.c lines 209-218): one
`sd_ble_gatts_hvx` notification of length 1 carrying `button_state`,
addressed at `button_char_handles.value_handle` on `m_conn_handle`. -/
def send_button (button_state : Nat) (s : SysState) : SysState :=
  { s with
    trace := s.trace ++
      [StackCall.hvx s.m_conn_handle s.value_handle BLE_GATT_HVX_NOTIFICATION
        [button_state]] }

/-- `button_handler(pin, action)` (main.c lines 225-235). -/
def button_handler (pin action : Nat) (s : SysState) : SysState :=
  if pin = BSP_BOARD_BUTTON_0 then
    let s' :=
      if action = APP_BUTTON_PUSH then bsp_board_led_on BSP_BOARD_LED_1 s
      else if action = APP_BUTTON_RELEASE then bsp_board_led_off BSP_BOARD_LED_1 s
      else s
    send_button action s'
  else s

/-- A BLE event as seen by the handler: the header event id and the
connection handle carried in `evt.gap_evt.conn_handle`. -/
structure BleEvtRec where
  evt_id : Nat
  conn_handle : Nat
  deriving Repr, DecidableEq

/-- `ble_evt_handler` (main.c lines 244-258): switch on the event id;
connected and disconnected cases as written, every other id falls through
the switch with no action. -/
def ble_evt_handler (e : BleEvtRec) (s : SysState) : SysState :=
  if e.evt_id = BLE_GAP_EVT_CONNECTED then
    let s1 := bsp_board_led_off BSP_BOARD_LED_2 s
    let s2 := bsp_board_led_on BSP_BOARD_LED_3 s1
    let s3 := { s2 with
      m_conn_handle := e.conn_handle,
      trace := s2.trace ++ [StackCall.connAssign e.conn_handle] }
    nrf_ble_qwr_conn_handle_assign s3.m_conn_handle s3
  else if e.evt_id = BLE_GAP_EVT_DISCONNECTED then
    let s1 := bsp_board_led_off BSP_BOARD_LED_3 s
    let s2 := { s1 with
      m_conn_handle := BLE_CONN_HANDLE_INVALID,
      trace := s1.trace ++ [StackCall.connAssign BLE_CONN_HANDLE_INVALID] }
    advertising_start s2
  else s

/-- Fold a sequence of BLE events through the handler. -/
def runEvents (evts : List BleEvtRec) (s : SysState) : SysState :=
  evts.foldl (fun st e => ble_evt_handler e st) s

/-! ### Abstract link state (spec section 4.5) for the tracker invariant -/

/-- Abstract state of the spec's connection state machine: `Advertising`
(also standing for `Idle`, where the tracker likewise holds the sentinel)
or `Connected` with the handle delivered by the most recent connect. -/
inductive LinkState where
  | advertising
  | connected (h : Nat)
  deriving Repr, DecidableEq

def stepLink (c : LinkState) (e : BleEvtRec) : LinkState :=
  if e.evt_id = BLE_GAP_EVT_CONNECTED then LinkState.connected e.conn_handle
  else if e.evt_id = BLE_GAP_EVT_DISCONNECTED then LinkState.advertising
  else c

def linkStateAfter (evts : List BleEvtRec) : LinkState :=
  evts.foldl stepLink LinkState.advertising

/-- The tracker invariant: while `Connected h` the tracker holds `h`,
otherwise it holds the sentinel. -/
def trackerOk (c : LinkState) (s : SysState) : Prop :=
  match c with
  | LinkState.advertising => s.m_conn_handle = BLE_CONN_HANDLE_INVALID
  | LinkState.connected h => s.m_conn_handle = h

/-! ### GATT registration (`advertising_init`, main.c lines 123-145) -/

/-- The fields of `ble_add_char_params_t` that the firmware's
`characteristic_add` call depends on.  `memset(&add_char_params, 0, ...)`
zeroes every field; access levels use the `security_req_t` encoding
(`SEC_NO_ACCESS = 0`, `SEC_OPEN = 1`). -/
structure AddCharParams where
  uuid : Nat
  uuid_type : Nat
  init_len : Nat
  max_len : Nat
  prop_broadcast : Bool
  prop_read : Bool
  prop_write_wo_resp : Bool
  prop_write : Bool
  prop_notify : Bool
  prop_indicate : Bool
  read_access : Nat
  write_access : Nat
  cccd_write_access : Nat
  deriving Repr, DecidableEq

/-- `memset(&add_char_params, 0, sizeof(add_char_params))`. -/
def zeroAddCharParams : AddCharParams :=
  { uuid := 0, uuid_type := 0, init_len := 0, max_len := 0
    prop_broadcast := false, prop_read := false, prop_write_wo_resp := false
    prop_write := false, prop_notify := false, prop_indicate := false
    read_access := SEC_NO_ACCESS, write_access := SEC_NO_ACCESS
    cccd_write_access := SEC_NO_ACCESS }

/-- A registered GATT service: its type, UUID and characteristics. -/
structure GattService where
  stype : Nat
  uuid : Nat
  uuid_type : Nat
  chars : List AddCharParams
  deriving Repr, DecidableEq

/-- The GATT server's registration table. -/
structure GattState where
  services : List GattService
  deriving Repr, DecidableEq

/-- `sd_ble_gatts_service_add`: registers a service and hands back its
handle (here: its index in the table). -/
def sd_ble_gatts_service_add (stype uuid uuid_type : Nat) (g : GattState) :
    GattState × Nat :=
  ({ services := g.services ++ [⟨stype, uuid, uuid_type, []⟩] },
   g.services.length)

/-- `characteristic_add(service_handle, &params, &handles)`: attaches a
characteristic to the service at `service_handle`. -/
def characteristic_add (service_handle : Nat) (p : AddCharParams)
    (g : GattState) : GattState :=
  { services :=
      g.services.mapIdx fun i svc =>
        if i = service_handle then { svc with chars := svc.chars ++ [p] }
        else svc }

/-- The `add_char_params` block built by `advertising_init` (main.c lines
136-144): zeroed, then UUID, vendor UUID type, 1-byte initial and maximum
length, read and notify properties, open read access and open CCCD write
access. -/
def button_add_char_params : AddCharParams :=
  { zeroAddCharParams with
    uuid := UUID_BUTTON_CHAR
    uuid_type := BLE_UUID_TYPE_VENDOR_BEGIN
    init_len := 1
    max_len := 1
    prop_read := true
    prop_notify := true
    read_access := SEC_OPEN
    cccd_write_access := SEC_OPEN }

/-- The GATT registrations performed by startup.  `services_init` only
initializes the queued-write module (no service of its own with a zeroed
`nrf_ble_qwr_init_t`); `advertising_init` (lines 124-145) then adds the
one primary service and the button characteristic.  `sd_ble_uuid_vs_add`
hands back `BLE_UUID_TYPE_VENDOR_BEGIN` for the first vendor base UUID. -/
def startup_gatt : GattState :=
  let g0 : GattState := { services := [] }
  let (g1, service_handle) :=
    sd_ble_gatts_service_add BLE_GATTS_SRVC_TYPE_PRIMARY UUID_SERVICE
      BLE_UUID_TYPE_VENDOR_BEGIN g0
  characteristic_add service_handle button_add_char_params g1

/-! ### Advertising payload encoding (main.c lines 147-158)

The firmware builds two `ble_advdata_t` inputs and calls the SDK's
`ble_advdata_encode` on each, with the buffer length field passed in as
the capacity and written back as the encoded length. -/

/-- The `ble_advdata_t` fields the firmware uses: name type, appearance
inclusion, advertising flags, and the complete 16-bit-in-vendor-base UUID
list (each entry a `ble_uuid_t`: 16-bit UUID plus UUID type). -/
structure AdvDataInput where
  name_type : Nat
  include_appearance : Bool
  flags : Nat
  uuids_complete : List (Nat × Nat)
  deriving Repr, DecidableEq

def BLE_ADVDATA_NO_NAME : Nat := 0

def BLE_ADVDATA_FULL_NAME : Nat := 2

def BLE_GAP_ADV_FLAGS_LE_ONLY_GENERAL_DISC_MODE : Nat := 0x06

/-- `memset(&advdata, 0, ...)` then lines 151-153: full name, appearance
included, LE-only general-discoverable flags. -/
def advdata_input : AdvDataInput :=
  { name_type := BLE_ADVDATA_FULL_NAME
    include_appearance := true
    flags := BLE_GAP_ADV_FLAGS_LE_ONLY_GENERAL_DISC_MODE
    uuids_complete := [] }

/-- `memset(&srdata, 0, ...)` then lines 155-156: only the complete list
of service UUIDs. -/
def srdata_input : AdvDataInput :=
  { name_type := BLE_ADVDATA_NO_NAME
    include_appearance := false
    flags := 0
    uuids_complete := [(UUID_SERVICE, BLE_UUID_TYPE_VENDOR_BEGIN)] }

/-- Byte values of the device name set by `sd_ble_gap_device_name_set`. -/
def deviceNameBytes : List Nat := DEVICE_NAME.toList.map Char.toNat

/-- The 128-bit UUID obtained by splicing a 16-bit UUID into bytes 12-13
of the vendor base (little-endian), as `sd_ble_uuid_vs_add` registers it. -/
def uuid128_of (u : Nat) : List Nat :=
  (UUID_BASE.set 12 (u % 256)).set 13 (u / 256 % 256)

def AD_TYPE_FLAGS : Nat := 0x01

def AD_TYPE_128BIT_SERVICE_UUID_COMPLETE : Nat := 0x07

def AD_TYPE_COMPLETE_LOCAL_NAME : Nat := 0x09

def AD_TYPE_APPEARANCE : Nat := 0x19

/-- Modelled from the spec: the SDK's `ble_advdata_encode` (vendor helper,
not under `src/`).  Per spec section 4.3 it encodes the flags, appearance
and full device name into AD structures (each a length byte, an AD type
byte and the payload), and the complete service-UUID list as 128-bit
UUIDs; it fails with a size-exceeded error instead of truncating when the
output exceeds the buffer capacity `cap` passed in through the length
field, and otherwise writes back the encoded length. -/
def ble_advdata_encode (d : AdvDataInput) (cap : Nat) :
    Except Unit (List Nat × Nat) :=
  let flagsAd :=
    if d.flags ≠ 0 then [2, AD_TYPE_FLAGS, d.flags] else []
  let appearanceAd :=
    if d.include_appearance then [3, AD_TYPE_APPEARANCE, 0, 0] else []
  let nameAd :=
    if d.name_type = BLE_ADVDATA_FULL_NAME then
      [1 + deviceNameBytes.length, AD_TYPE_COMPLETE_LOCAL_NAME] ++
        deviceNameBytes
    else []
  let uuidsAd :=
    if d.uuids_complete ≠ [] then
      d.uuids_complete.foldl
        (fun acc u =>
          acc ++ [17, AD_TYPE_128BIT_SERVICE_UUID_COMPLETE] ++
            uuid128_of u.1) []
    else []
  let bytes := flagsAd ++ appearanceAd ++ nameAd ++ uuidsAd
  if bytes.length ≤ cap then Except.ok (bytes, bytes.length)
  else Except.error ()

/-- The two encode calls of `advertising_init` (lines 157-158), with the
advertising-buffer and scan-response-buffer length fields (`capA`, `capS`)
as the capacities handed to the encoder.  At startup both fields hold
`BLE_GAP_ADV_SET_DATA_SIZE_MAX`; after an encode each holds the written
length. -/
def encode_adv_payload (capA capS : Nat) :
    Except Unit ((List Nat × Nat) × (List Nat × Nat)) := do
  let a ← ble_advdata_encode advdata_input capA
  let s ← ble_advdata_encode srdata_input capS
  pure (a, s)

/-! ### Theorems -/

/-- Claim C1 (code bug): `gap_params_init` passes `MIN_CONN_INTERVAL` for
both bounds.  The minimum bound matches the claim, but the maximum bound
passed to `sd_ble_gap_ppcp_set` is `MIN_CONN_INTERVAL` (80 units of
1.25 ms, i.e. 100 ms), not the defined-but-unused `MAX_CONN_INTERVAL`
(160 units, 200 ms): main.c line 93 assigns `MIN_CONN_INTERVAL` to
`max_conn_interval`. -/
theorem gap_params_max_interval_bug :
    gap_params_init_ppcp.min_conn_interval = MIN_CONN_INTERVAL ∧
    gap_params_init_ppcp.max_conn_interval = MIN_CONN_INTERVAL ∧
    gap_params_init_ppcp.max_conn_interval ≠ MAX_CONN_INTERVAL ∧
    MIN_CONN_INTERVAL = 80 ∧ MAX_CONN_INTERVAL = 160 := by
  decide

theorem trackerOk_step (e : BleEvtRec) (c : LinkState) (s : SysState)
    (h : trackerOk c s) : trackerOk (stepLink c e) (ble_evt_handler e s) := by
  by_cases h1 : e.evt_id = BLE_GAP_EVT_CONNECTED
  · simp [stepLink, ble_evt_handler, h1, trackerOk,
      nrf_ble_qwr_conn_handle_assign, bsp_board_led_on, bsp_board_led_off,
      BLE_GAP_EVT_CONNECTED, BLE_GAP_EVT_DISCONNECTED,
      BSP_BOARD_LED_2, BSP_BOARD_LED_3]
  · by_cases h2 : e.evt_id = BLE_GAP_EVT_DISCONNECTED
    · simp [stepLink, ble_evt_handler, h1, h2, trackerOk, advertising_start,
        sd_ble_gap_adv_start, bsp_board_led_on, bsp_board_led_off,
        BLE_GAP_EVT_CONNECTED, BLE_GAP_EVT_DISCONNECTED,
        BSP_BOARD_LED_2, BSP_BOARD_LED_3]
    · simpa [stepLink, ble_evt_handler, h1, h2] using h

/-- Claim C2: over any sequence of BLE events starting from a state whose
tracker holds the sentinel (the static initializer, and likewise any
`Idle`/`Advertising` state), `m_conn_handle` holds the handle delivered by
the most recent connect event while the abstract machine is `Connected`,
and the sentinel `BLE_CONN_HANDLE_INVALID` while it is `Advertising`; in
particular no handle survives a disconnect. -/
theorem conn_handle_tracks_link_state (evts : List BleEvtRec) (s0 : SysState)
    (h0 : s0.m_conn_handle = BLE_CONN_HANDLE_INVALID) :
    trackerOk (linkStateAfter evts) (runEvents evts s0) := by
  have aux : ∀ (l : List BleEvtRec) (c : LinkState) (s : SysState),
      trackerOk c s →
      trackerOk (l.foldl stepLink c)
        (l.foldl (fun st e => ble_evt_handler e st) s) := by
    intro l
    induction l with
    | nil => intro c s h; exact h
    | cons e rest ih => intro c s h; exact ih _ _ (trackerOk_step e c s h)
  exact aux evts LinkState.advertising s0 h0

/-- Witness for C2 on a concrete event sequence: connect with handle 5,
disconnect, connect with handle 7 — the tracker ends holding 7. -/
theorem conn_handle_tracks_link_state_witness :
    trackerOk (linkStateAfter [⟨16, 5⟩, ⟨17, 0⟩, ⟨16, 7⟩])
      (runEvents [⟨16, 5⟩, ⟨17, 0⟩, ⟨16, 7⟩] initState) :=
  conn_handle_tracks_link_state [⟨16, 5⟩, ⟨17, 0⟩, ⟨16, 7⟩] initState rfl

/-- Claim C3: for any state (any connection state), a pressed edge on
button 0 turns LED 1 on and issues exactly one 1-byte notification
carrying `APP_BUTTON_PUSH`, and a released edge turns LED 1 off and
issues exactly one 1-byte notification carrying `APP_BUTTON_RELEASE`. -/
theorem button_edge_led_and_notify (s : SysState) :
    (button_handler BSP_BOARD_BUTTON_0 APP_BUTTON_PUSH s).led1 = true ∧
    (button_handler BSP_BOARD_BUTTON_0 APP_BUTTON_PUSH s).trace =
      s.trace ++ [StackCall.ledOn BSP_BOARD_LED_1,
        StackCall.hvx s.m_conn_handle s.value_handle BLE_GATT_HVX_NOTIFICATION
          [APP_BUTTON_PUSH]] ∧
    (button_handler BSP_BOARD_BUTTON_0 APP_BUTTON_RELEASE s).led1 = false ∧
    (button_handler BSP_BOARD_BUTTON_0 APP_BUTTON_RELEASE s).trace =
      s.trace ++ [StackCall.ledOff BSP_BOARD_LED_1,
        StackCall.hvx s.m_conn_handle s.value_handle BLE_GATT_HVX_NOTIFICATION
          [APP_BUTTON_RELEASE]] := by
  refine ⟨?_, ?_, ?_, ?_⟩ <;>
    simp [button_handler, send_button, bsp_board_led_on, bsp_board_led_off,
      BSP_BOARD_BUTTON_0, APP_BUTTON_PUSH, APP_BUTTON_RELEASE, BSP_BOARD_LED_1]

/-- Claim C4: a press handled while `m_conn_handle` is the sentinel still
turns LED 1 on, still attempts the notification (targeted at the invalid
handle), and leaves `m_conn_handle` unchanged. -/
theorem button_press_no_connection (s : SysState)
    (h : s.m_conn_handle = BLE_CONN_HANDLE_INVALID) :
    (button_handler BSP_BOARD_BUTTON_0 APP_BUTTON_PUSH s).led1 = true ∧
    (button_handler BSP_BOARD_BUTTON_0 APP_BUTTON_PUSH s).trace =
      s.trace ++ [StackCall.ledOn BSP_BOARD_LED_1,
        StackCall.hvx BLE_CONN_HANDLE_INVALID s.value_handle
          BLE_GATT_HVX_NOTIFICATION [APP_BUTTON_PUSH]] ∧
    (button_handler BSP_BOARD_BUTTON_0 APP_BUTTON_PUSH s).m_conn_handle =
      s.m_conn_handle := by
  refine ⟨?_, ?_, ?_⟩ <;>
    simp [button_handler, send_button, bsp_board_led_on, h,
      BSP_BOARD_BUTTON_0, APP_BUTTON_PUSH, BSP_BOARD_LED_1]

/-- Witness for C4 at the initial (disconnected) state. -/
theorem button_press_no_connection_witness :
    (button_handler BSP_BOARD_BUTTON_0 APP_BUTTON_PUSH initState).led1 = true ∧
    (button_handler BSP_BOARD_BUTTON_0 APP_BUTTON_PUSH initState).trace =
      initState.trace ++ [StackCall.ledOn BSP_BOARD_LED_1,
        StackCall.hvx BLE_CONN_HANDLE_INVALID initState.value_handle
          BLE_GATT_HVX_NOTIFICATION [APP_BUTTON_PUSH]] ∧
    (button_handler BSP_BOARD_BUTTON_0 APP_BUTTON_PUSH initState).m_conn_handle =
      initState.m_conn_handle :=
  button_press_no_connection initState rfl

/-- Claim C5: a disconnect event turns LED 3 (connected) off, resets
`m_conn_handle` to the sentinel, and restarts advertising which turns
LED 2 (advertising) on — and the recorded call order is exactly that. -/
theorem disconnect_resets_and_restarts (s : SysState) (h : Nat) :
    (ble_evt_handler ⟨BLE_GAP_EVT_DISCONNECTED, h⟩ s).led3 = false ∧
    (ble_evt_handler ⟨BLE_GAP_EVT_DISCONNECTED, h⟩ s).m_conn_handle =
      BLE_CONN_HANDLE_INVALID ∧
    (ble_evt_handler ⟨BLE_GAP_EVT_DISCONNECTED, h⟩ s).advertising = true ∧
    (ble_evt_handler ⟨BLE_GAP_EVT_DISCONNECTED, h⟩ s).led2 = true ∧
    (ble_evt_handler ⟨BLE_GAP_EVT_DISCONNECTED, h⟩ s).trace =
      s.trace ++ [StackCall.ledOff BSP_BOARD_LED_3,
        StackCall.connAssign BLE_CONN_HANDLE_INVALID,
        StackCall.advStart,
        StackCall.ledOn BSP_BOARD_LED_2] := by
  refine ⟨?_, ?_, ?_, ?_, ?_⟩ <;>
    simp [ble_evt_handler, advertising_start, sd_ble_gap_adv_start,
      bsp_board_led_on, bsp_board_led_off, BLE_GAP_EVT_CONNECTED,
      BLE_GAP_EVT_DISCONNECTED, BSP_BOARD_LED_2, BSP_BOARD_LED_3]

/-- Claim C6: a connect event carrying handle `h` turns LED 2
(advertising) off, turns LED 3 (connected) on, stores `h` in
`m_conn_handle`, and binds the queued-write module to `h` — in that
recorded order. -/
theorem connect_stores_handle_and_binds_qwr (s : SysState) (h : Nat) :
    (ble_evt_handler ⟨BLE_GAP_EVT_CONNECTED, h⟩ s).led2 = false ∧
    (ble_evt_handler ⟨BLE_GAP_EVT_CONNECTED, h⟩ s).led3 = true ∧
    (ble_evt_handler ⟨BLE_GAP_EVT_CONNECTED, h⟩ s).m_conn_handle = h ∧
    (ble_evt_handler ⟨BLE_GAP_EVT_CONNECTED, h⟩ s).qwr_conn_handle = h ∧
    (ble_evt_handler ⟨BLE_GAP_EVT_CONNECTED, h⟩ s).trace =
      s.trace ++ [StackCall.ledOff BSP_BOARD_LED_2,
        StackCall.ledOn BSP_BOARD_LED_3,
        StackCall.connAssign h,
        StackCall.qwrAssign h] := by
  refine ⟨?_, ?_, ?_, ?_, ?_⟩ <;>
    simp [ble_evt_handler, nrf_ble_qwr_conn_handle_assign,
      bsp_board_led_on, bsp_board_led_off, BLE_GAP_EVT_CONNECTED,
      BSP_BOARD_LED_2, BSP_BOARD_LED_3]

/-- Claim C7: startup registers exactly one service, it is primary, it has
exactly one characteristic, and that characteristic has 1-byte initial and
maximum length, properties read and notify only, open read access and open
CCCD write access. -/
theorem startup_one_service_one_char :
    ∃ svc c, startup_gatt.services = [svc] ∧
      svc.stype = BLE_GATTS_SRVC_TYPE_PRIMARY ∧
      svc.chars = [c] ∧
      c.init_len = 1 ∧ c.max_len = 1 ∧
      c.prop_read = true ∧ c.prop_notify = true ∧
      c.prop_broadcast = false ∧ c.prop_write = false ∧
      c.prop_write_wo_resp = false ∧ c.prop_indicate = false ∧
      c.read_access = SEC_OPEN ∧ c.cccd_write_access = SEC_OPEN ∧
      c.write_access = SEC_NO_ACCESS :=
  ⟨⟨BLE_GATTS_SRVC_TYPE_PRIMARY, UUID_SERVICE, BLE_UUID_TYPE_VENDOR_BEGIN,
      [button_add_char_params]⟩,
    button_add_char_params, by decide, by decide, by decide, by decide,
    by decide, by decide, by decide, by decide, by decide, by decide,
    by decide, by decide, by decide, by decide⟩

/-- Claim C8: the two-buffer payload encode from the fixed inputs of
`advertising_init` succeeds, and running it again with the length fields
written back by the first run (the state a second `advertising_init`
would encode under) returns byte-identical buffers and lengths. -/
theorem adv_encode_idempotent :
    ∃ a s : List Nat,
      encode_adv_payload BLE_GAP_ADV_SET_DATA_SIZE_MAX
          BLE_GAP_ADV_SET_DATA_SIZE_MAX =
        Except.ok ((a, a.length), (s, s.length)) ∧
      encode_adv_payload a.length s.length =
        encode_adv_payload BLE_GAP_ADV_SET_DATA_SIZE_MAX
          BLE_GAP_ADV_SET_DATA_SIZE_MAX :=
  ⟨[2, 1, 6, 3, 25, 0, 0, 18, 9, 110, 82, 70, 53, 50, 56, 52, 48, 95, 84,
      101, 99, 104, 68, 101, 109, 111],
    [17, 7, 35, 209, 188, 234, 95, 120, 35, 21, 222, 239, 18, 18, 52, 18,
      0, 0],
    by rfl, by rfl⟩

/-- Claim C9: any BLE event whose id is neither connected nor disconnected
leaves the whole state — connection handle, LEDs, advertising flag, trace
— untouched. -/
theorem ble_evt_handler_frame (e : BleEvtRec) (s : SysState)
    (h1 : e.evt_id ≠ BLE_GAP_EVT_CONNECTED)
    (h2 : e.evt_id ≠ BLE_GAP_EVT_DISCONNECTED) :
    ble_evt_handler e s = s := by
  simp [ble_evt_handler, h1, h2]

/-- Witness for C9 at a concrete non-link event id (0x12, a
connection-parameter-update event). -/
theorem ble_evt_handler_frame_witness :
    ble_evt_handler ⟨0x12, 0⟩ initState = initState :=
  ble_evt_handler_frame ⟨0x12, 0⟩ initState (by decide) (by decide)

/-- Claim C10: a button event on any pin other than button 0 leaves the
whole state untouched, whatever the edge. -/
theorem button_handler_frame (pin action : Nat) (s : SysState)
    (h : pin ≠ BSP_BOARD_BUTTON_0) :
    button_handler pin action s = s := by
  simp [button_handler, h]

/-- Witness for C10 at pin 1 with a pressed edge. -/
theorem button_handler_frame_witness :
    button_handler 1 APP_BUTTON_PUSH initState = initState :=
  button_handler_frame 1 APP_BUTTON_PUSH initState (by decide)
